import Mathlib

/-!
Verification of the Sustaina shipping-risk scoring model (src/app.py).

The module-level computation of `app.py` (lines 115-175) is embedded as pure
Lean functions over `ℚ` (the source performs exact decimal arithmetic on the
table constants; we model real-number arithmetic exactly with rationals).
Python dictionary lookups, which raise `KeyError` on a missing key, are
embedded as `Option`-returning lookup functions, and the whole evaluation as
an `Option`-returning function that fails exactly when a lookup fails.

The ambient call `date.today().year` (line 123) is modelled by an explicit
argument `today_year` of the evaluation function, standing for the value the
system clock yields at run time; it is not a field of `VesselProfile`.
-/

namespace Sustaina

/-- Input record gathered by the form widgets (lines 80-110 of app.py).
Enum-like fields are plain strings, exactly as in the source; numeric
fields are integers as produced by `st.number_input` with `step` ≥ 1. -/
structure VesselProfile where
  organization : String
  vessel_name : String
  imo : String
  ship_type : String
  engine_type : String
  fuel_type : String
  speed_profile : String
  retrofit_status : String
  eu_exposure : String
  route_pattern : String
  year_built : Int
  dwt : Int
  operating_days : Int
deriving DecidableEq

/-- FUEL_EF_CO2 table (lines 49-55): kg CO2 per kg fuel. `none` models the
Python `KeyError` on a key outside the dictionary. -/
def FUEL_EF_CO2 (s : String) : Option ℚ :=
  if s = "HFO (Heavy Fuel Oil)" then some 3.114
  else if s = "MGO/MDO (Marine Gas Oil/Diesel)" then some 3.206
  else if s = "LNG" then some 2.750
  else if s = "Methanol (Low-Carbon/Green blend)" then some 1.375
  else if s = "Ammonia (Green)" then some 0.000
  else none

/-- SHIP_TYPE_MULT table (lines 57-64). -/
def SHIP_TYPE_MULT (s : String) : Option ℚ :=
  if s = "Container" then some 1.15
  else if s = "Bulk carrier" then some 1.00
  else if s = "Tanker" then some 1.05
  else if s = "Ro-Ro" then some 1.10
  else if s = "General cargo" then some 0.95
  else if s = "Other" then some 1.00
  else none

/-- ENGINE_RISK table (lines 66-71). -/
def ENGINE_RISK (s : String) : Option ℚ :=
  if s = "2-stroke low-speed" then some 1.00
  else if s = "4-stroke medium-speed" then some 1.05
  else if s = "Dual-fuel" then some 0.95
  else if s = "Unknown" then some 1.10
  else none

/-- Inline speed-multiplier dictionary (line 115). -/
def speed_mult (s : String) : Option ℚ :=
  if s = "Slow steaming" then some 0.80
  else if s = "Normal" then some 1.00
  else if s = "Fast" then some 1.18
  else none

/-- Inline retrofit-risk dictionary (line 126). -/
def RETROFIT_RISK (s : String) : Option ℚ :=
  if s = "None" then some 1.0
  else if s = "Planned" then some 0.6
  else if s = "Installed" then some 0.3
  else none

/-- Inline EU-exposure risk dictionary (line 127). -/
def EU_RISK (s : String) : Option ℚ :=
  if s = "None" then some 0.2
  else if s = "Partial" then some 0.6
  else if s = "High" then some 1.0
  else none

/-- Inline fuel-pathway risk dictionary (lines 129-135). -/
def FUEL_PATHWAY_RISK (s : String) : Option ℚ :=
  if s = "HFO (Heavy Fuel Oil)" then some 1.0
  else if s = "MGO/MDO (Marine Gas Oil/Diesel)" then some 0.9
  else if s = "LNG" then some 0.75
  else if s = "Methanol (Low-Carbon/Green blend)" then some 0.45
  else if s = "Ammonia (Green)" then some 0.35
  else none

/-- Inline carbon-price proxy dictionary (line 156), EUR per tonne. -/
def CARBON_PRICE (s : String) : Option ℚ :=
  if s = "None" then some 30
  else if s = "Partial" then some 75
  else if s = "High" then some 110
  else none

/-- Coverage multiplier (line 157): a conditional expression, not a dict
lookup, so it is total — any string other than None and Partial yields 1.0. -/
def coverage_mult_of (eu : String) : ℚ :=
  if eu = "None" then 0.0 else if eu = "Partial" then 0.6 else 1.0

/-- Line 116: `base_daily_fuel_tonnes = (dwt / 10000) * 1.2`. -/
def base_daily_fuel_tonnes (dwt : Int) : ℚ := ((dwt : ℚ) / 10000) * 1.2

/-- Line 117: daily fuel from base, ship-type multiplier and speed multiplier. -/
def daily_fuel_tonnes_of (dwt : Int) (stm sm : ℚ) : ℚ :=
  base_daily_fuel_tonnes dwt * stm * sm

/-- Line 118: `annual_fuel_tonnes = daily_fuel_tonnes * operating_days`. -/
def annual_fuel_tonnes_of (dwt : Int) (stm sm : ℚ) (od : Int) : ℚ :=
  daily_fuel_tonnes_of dwt stm sm * (od : ℚ)

/-- Line 121: `annual_co2_tonnes = (annual_fuel_tonnes * 1000 * ef) / 1000`. -/
def annual_co2_tonnes_of (af ef : ℚ) : ℚ := (af * 1000 * ef) / 1000

/-- Line 124: `age_risk = min(1.0, max(0.0, (age - 5) / 25))`. -/
def age_risk_of (age : Int) : ℚ := min 1 (max 0 (((age : ℚ) - 5) / 25))

/-- Line 125: `engine_risk = min(1.0, (ENGINE_RISK[engine_type] - 0.9) / 0.3)`.
Note the source applies only the upper clamp here. -/
def engine_risk_of (er : ℚ) : ℚ := min 1 ((er - 0.9) / 0.3)

/-- Lines 137-144: weighted sum, scaled to 100 and clamped to [0, 100]. -/
def risk_score_of (eur ar rr fpr enr : ℚ) : ℚ :=
  max 0 (min 100 (100 * (0.30 * eur + 0.25 * ar + 0.20 * rr + 0.15 * fpr + 0.10 * enr)))

/-- Lines 146-153: four-bucket posture label with inclusive lower bounds. -/
def posture_of (score : ℚ) : String :=
  if score ≥ 75 then "SEVERE EXPOSURE"
  else if score ≥ 55 then "HIGH EXPOSURE"
  else if score ≥ 35 then "MODERATE EXPOSURE"
  else "LOWER EXPOSURE"

/-- Lever string appended at line 167. -/
def leverRetrofit : String :=
  "Prepare retrofit pathway plan (efficiency / capture-readiness) to reduce compliance friction."

/-- Lever string appended at line 169. -/
def leverRouting : String :=
  "Introduce speed + route efficiency policy to reduce jurisdictional cost exposure."

/-- Lever string appended at line 171. -/
def leverTransitionFuel : String :=
  "Evaluate transition fuel readiness (methanol / ammonia strategy) for medium-term resilience."

/-- Lever string appended at line 173. -/
def leverMethane : String :=
  "Flag methane slip as a material risk dimension; add monitoring roadmap (CH4 focus)."

/-- Lever string appended at line 175. -/
def leverAge : String :=
  "High age-profile: strengthen charter/finance narrative using improvement evidence + plan."

/-- Lines 165-175: improvement levers, built by sequential conditional
appends in declaration order. -/
def levers (p : VesselProfile) (age : Int) : List String :=
  let l : List String := []
  let l := if p.retrofit_status = "None" then l ++ [leverRetrofit] else l
  let l := if p.eu_exposure = "Partial" ∨ p.eu_exposure = "High" then l ++ [leverRouting] else l
  let l := if p.fuel_type = "HFO (Heavy Fuel Oil)" ∨ p.fuel_type = "MGO/MDO (Marine Gas Oil/Diesel)"
    then l ++ [leverTransitionFuel] else l
  let l := if p.fuel_type = "LNG" then l ++ [leverMethane] else l
  let l := if 20 ≤ age then l ++ [leverAge] else l
  l

/-- Computed output record: the module-level variables of lines 115-175. -/
structure RiskOutput where
  daily_fuel_tonnes : ℚ
  annual_fuel_tonnes : ℚ
  annual_co2_tonnes : ℚ
  age : Int
  age_risk : ℚ
  engine_risk : ℚ
  retrofit_risk : ℚ
  eu_risk : ℚ
  fuel_pathway_risk : ℚ
  risk_score : ℚ
  posture : String
  carbon_cost : ℚ
  low_band : ℚ
  high_band : ℚ
  levers : List String
deriving DecidableEq

/-- Assembly of the output record from the profile and the values the eight
dictionary lookups returned, following lines 115-175 of the source. -/
def evaluateCore (today_year : Int) (p : VesselProfile)
    (sm stm ef er rr eur fpr cp : ℚ) : RiskOutput :=
  let daily := daily_fuel_tonnes_of p.dwt stm sm
  let af := annual_fuel_tonnes_of p.dwt stm sm p.operating_days
  let co2 := annual_co2_tonnes_of af ef
  let age := today_year - p.year_built
  let ar := age_risk_of age
  let enr := engine_risk_of er
  let score := risk_score_of eur ar rr fpr enr
  let cost := co2 * cp * coverage_mult_of p.eu_exposure
  { daily_fuel_tonnes := daily
    annual_fuel_tonnes := af
    annual_co2_tonnes := co2
    age := age
    age_risk := ar
    engine_risk := enr
    retrofit_risk := rr
    eu_risk := eur
    fuel_pathway_risk := fpr
    risk_score := score
    posture := posture_of score
    carbon_cost := cost
    low_band := cost * 0.85
    high_band := cost * 1.15
    levers := levers p age }

/-- The module-level computation (lines 115-175): each dictionary lookup may
fail with a `KeyError`, modelled by `Option.bind`; `today_year` models the
value of `date.today().year` at evaluation time. -/
def evaluate (today_year : Int) (p : VesselProfile) : Option RiskOutput :=
  (speed_mult p.speed_profile).bind fun sm =>
  (SHIP_TYPE_MULT p.ship_type).bind fun stm =>
  (FUEL_EF_CO2 p.fuel_type).bind fun ef =>
  (ENGINE_RISK p.engine_type).bind fun er =>
  (RETROFIT_RISK p.retrofit_status).bind fun rr =>
  (EU_RISK p.eu_exposure).bind fun eur =>
  (FUEL_PATHWAY_RISK p.fuel_type).bind fun fpr =>
  (CARBON_PRICE p.eu_exposure).bind fun cp =>
  some (evaluateCore today_year p sm stm ef er rr eur fpr cp)

/-- Keys of the ship-type table. -/
def SHIP_TYPE_KEYS : List String :=
  ["Container", "Bulk carrier", "Tanker", "Ro-Ro", "General cargo", "Other"]

/-- Keys of the engine-risk table. -/
def ENGINE_KEYS : List String :=
  ["2-stroke low-speed", "4-stroke medium-speed", "Dual-fuel", "Unknown"]

/-- Keys of the fuel tables (emission factor and pathway risk share keys). -/
def FUEL_KEYS : List String :=
  ["HFO (Heavy Fuel Oil)", "MGO/MDO (Marine Gas Oil/Diesel)", "LNG",
   "Methanol (Low-Carbon/Green blend)", "Ammonia (Green)"]

/-- Keys of the speed-multiplier dictionary. -/
def SPEED_KEYS : List String := ["Slow steaming", "Normal", "Fast"]

/-- Keys of the retrofit-risk dictionary. -/
def RETROFIT_KEYS : List String := ["None", "Planned", "Installed"]

/-- Keys of the EU-exposure dictionaries (risk and carbon price share keys). -/
def EU_KEYS : List String := ["None", "Partial", "High"]

/-- All six enum-like fields lie inside their reference tables. -/
def validEnums (p : VesselProfile) : Prop :=
  p.ship_type ∈ SHIP_TYPE_KEYS ∧ p.engine_type ∈ ENGINE_KEYS ∧
  p.fuel_type ∈ FUEL_KEYS ∧ p.speed_profile ∈ SPEED_KEYS ∧
  p.retrofit_status ∈ RETROFIT_KEYS ∧ p.eu_exposure ∈ EU_KEYS

instance (p : VesselProfile) : Decidable (validEnums p) := by
  unfold validEnums; infer_instance

/-- Well-formed profile: enum fields in the tables and numeric fields in the
ranges enforced by the input widgets (lines 84, 85, 96). -/
def ValidProfile (today_year : Int) (p : VesselProfile) : Prop :=
  validEnums p ∧ 1970 ≤ p.year_built ∧ p.year_built ≤ today_year ∧
  1000 ≤ p.dwt ∧ p.dwt ≤ 400000 ∧ 30 ≤ p.operating_days ∧ p.operating_days ≤ 365

instance (y : Int) (p : VesselProfile) : Decidable (ValidProfile y p) := by
  unfold ValidProfile; infer_instance

/-- The default scenario of the form widgets: Bulk carrier, 60000 DWT,
Normal speed, 300 operating days, HFO, built 2010, 2-stroke low-speed
engine, no retrofit, partial EU exposure. -/
def scenarioProfile : VesselProfile :=
  { organization := "Demo Shipping Ltd"
    vessel_name := "MV Example"
    imo := "IMO1234567"
    ship_type := "Bulk carrier"
    engine_type := "2-stroke low-speed"
    fuel_type := "HFO (Heavy Fuel Oil)"
    speed_profile := "Normal"
    retrofit_status := "None"
    eu_exposure := "Partial"
    route_pattern := "Asia to EU"
    year_built := 2010
    dwt := 60000
    operating_days := 300 }

/-! SHA-256 (FIPS 180-4), executable over byte lists, used by `make_cert_id`
(lines 213-216 of app.py: `hashlib.sha256(base.encode("utf-8")).hexdigest()`).
Words are `Nat` values kept below `2 ^ 32` by explicit reduction. -/

/-- Reduce a natural number to a 32-bit word. -/
def w32 (n : Nat) : Nat := n % 4294967296

/-- Right rotation of a 32-bit word by `n` bits. -/
def rotr (x n : Nat) : Nat := w32 ((x >>> n) ||| (x <<< (32 - n)))

/-- Bitwise complement of a 32-bit word. -/
def wnot (x : Nat) : Nat := x ^^^ 4294967295

/-- SHA-256 choice function. -/
def schCh (x y z : Nat) : Nat := (x &&& y) ^^^ (wnot x &&& z)

/-- SHA-256 majority function. -/
def schMaj (x y z : Nat) : Nat := (x &&& y) ^^^ (x &&& z) ^^^ (y &&& z)

/-- Big sigma-0 compression function. -/
def bigS0 (x : Nat) : Nat := rotr x 2 ^^^ rotr x 13 ^^^ rotr x 22

/-- Big sigma-1 compression function. -/
def bigS1 (x : Nat) : Nat := rotr x 6 ^^^ rotr x 11 ^^^ rotr x 25

/-- Small sigma-0 schedule function. -/
def smallS0 (x : Nat) : Nat := rotr x 7 ^^^ rotr x 18 ^^^ (x >>> 3)

/-- Small sigma-1 schedule function. -/
def smallS1 (x : Nat) : Nat := rotr x 17 ^^^ rotr x 19 ^^^ (x >>> 10)

/-- The 64 SHA-256 round constants. -/
def sha256K : List Nat :=
  [1116352408, 1899447441, 3049323471, 3921009573,
   961987163, 1508970993, 2453635748, 2870763221,
   3624381080, 310598401, 607225278, 1426881987,
   1925078388, 2162078206, 2614888103, 3248222580,
   3835390401, 4022224774, 264347078, 604807628,
   770255983, 1249150122, 1555081692, 1996064986,
   2554220882, 2821834349, 2952996808, 3210313671,
   3336571891, 3584528711, 113926993, 338241895,
   666307205, 773529912, 1294757372, 1396182291,
   1695183700, 1986661051, 2177026350, 2456956037,
   2730485921, 2820302411, 3259730800, 3345764771,
   3516065817, 3600352804, 4094571909, 275423344,
   430227734, 506948616, 659060556, 883997877,
   958139571, 1322822218, 1537002063, 1747873779,
   1955562222, 2024104815, 2227730452, 2361852424,
   2428436474, 2756734187, 3204031479, 3329325298]

/-- Group a byte list into big-endian 32-bit words, four bytes at a time. -/
def bytesToWords : List Nat → List Nat
  | a :: b :: c :: d :: rest => (a * 16777216 + b * 65536 + c * 256 + d) :: bytesToWords rest
  | _ => []

/-- Extend the 16 chunk words by `n` further schedule words. -/
def extendSchedule : Nat → List Nat → List Nat
  | 0, acc => acc
  | n + 1, acc =>
      let i := acc.length
      let w := w32 (smallS1 (acc.getD (i - 2) 0) + acc.getD (i - 7) 0 +
        smallS0 (acc.getD (i - 15) 0) + acc.getD (i - 16) 0)
      extendSchedule n (acc ++ [w])

/-- Working state of the compression loop: eight 32-bit words. -/
structure HashState where
  a : Nat
  b : Nat
  c : Nat
  d : Nat
  e : Nat
  f : Nat
  g : Nat
  h : Nat
deriving DecidableEq

/-- One pass over the paired round constants and schedule words. -/
def sha256Rounds : List (Nat × Nat) → HashState → HashState
  | [], s => s
  | (k, w) :: rest, s =>
      let t1 := w32 (s.h + bigS1 s.e + schCh s.e s.f s.g + k + w)
      let t2 := w32 (bigS0 s.a + schMaj s.a s.b s.c)
      sha256Rounds rest
        { a := w32 (t1 + t2), b := s.a, c := s.b, d := s.c,
          e := w32 (s.d + t1), f := s.e, g := s.f, h := s.g }

/-- Add two hash states word-wise, modulo `2 ^ 32`. -/
def addState (s t : HashState) : HashState :=
  { a := w32 (s.a + t.a), b := w32 (s.b + t.b), c := w32 (s.c + t.c),
    d := w32 (s.d + t.d), e := w32 (s.e + t.e), f := w32 (s.f + t.f),
    g := w32 (s.g + t.g), h := w32 (s.h + t.h) }

/-- Split a word list into groups of 16; the fuel argument bounds the number
of groups and keeps the recursion structural. -/
def chunksGo : Nat → List Nat → List (List Nat)
  | 0, _ => []
  | _, [] => []
  | n + 1, ws => ws.take 16 :: chunksGo n (ws.drop 16)

/-- Process every 16-word chunk of the padded message. -/
def processChunks (st : HashState) : List (List Nat) → HashState
  | [] => st
  | ws :: rest =>
      let sched := extendSchedule 48 ws
      let comp := sha256Rounds (sha256K.zip sched) st
      processChunks (addState st comp) rest

/-- Big-endian eight-byte encoding of the 64-bit bit length. -/
def lenBytes (len : Nat) : List Nat :=
  let b := 8 * len
  [(b >>> 56) % 256, (b >>> 48) % 256, (b >>> 40) % 256, (b >>> 32) % 256,
   (b >>> 24) % 256, (b >>> 16) % 256, (b >>> 8) % 256, b % 256]

/-- SHA-256 padding: a 0x80 byte, zeros to 56 mod 64, then the bit length. -/
def sha256Pad (ms : List Nat) : List Nat :=
  ms ++ (128 :: List.replicate ((119 - ms.length % 64) % 64) 0) ++ lenBytes ms.length

/-- Initial SHA-256 hash state. -/
def sha256Init : HashState :=
  { a := 1779033703, b := 3144134277, c := 1013904242, d := 2773480762,
    e := 1359893119, f := 2600822924, g := 528734635, h := 1541459225 }

/-- Big-endian four-byte decomposition of a 32-bit word. -/
def wordBytes (w : Nat) : List Nat :=
  [(w >>> 24) % 256, (w >>> 16) % 256, (w >>> 8) % 256, w % 256]

/-- SHA-256 digest of a byte list, as a 32-byte list. -/
def sha256Bytes (ms : List Nat) : List Nat :=
  let padded := sha256Pad ms
  let words := bytesToWords padded
  let final := processChunks sha256Init (chunksGo (words.length + 1) words)
  wordBytes final.a ++ wordBytes final.b ++ wordBytes final.c ++ wordBytes final.d ++
  wordBytes final.e ++ wordBytes final.f ++ wordBytes final.g ++ wordBytes final.h

/-- Uppercase hex digit for a value below 16. -/
def hexDigitU (n : Nat) : Char :=
  if n < 10 then Char.ofNat (48 + n) else Char.ofNat (55 + n)

/-- Uppercase hex rendering of a byte list. -/
def bytesToHexU : List Nat → List Char
  | [] => []
  | b :: rest => hexDigitU (b / 16) :: hexDigitU (b % 16) :: bytesToHexU rest

/-- UTF-8 encoding of a single code point. -/
def utf8Bytes (c : Nat) : List Nat :=
  if c < 128 then [c]
  else if c < 2048 then [192 + c / 64, 128 + c % 64]
  else if c < 65536 then [224 + c / 4096, 128 + c / 64 % 64, 128 + c % 64]
  else [240 + c / 262144, 128 + c / 4096 % 64, 128 + c / 64 % 64, 128 + c % 64]

/-- UTF-8 byte encoding of a string, as `str.encode("utf-8")` produces. -/
def strBytes (s : String) : List Nat :=
  (s.data.map fun c => utf8Bytes c.toNat).flatten

/-- The certificate record of lines 466-499: the fields that `make_cert_id`
and the levers claims inspect, including fields the ID derivation ignores. -/
structure CertRecord where
  issuer : String
  organization : String
  vessel_name : String
  imo : String
  valid_from : String
  valid_until : String
  risk_score : ℚ
  posture : String
  levers : List String
deriving DecidableEq

/-- Line 214: the hash preimage `org|imo|vessel|valid_from|valid_until`. -/
def certBase (r : CertRecord) : String :=
  r.organization ++ "|" ++ r.imo ++ "|" ++ r.vessel_name ++ "|" ++
  r.valid_from ++ "|" ++ r.valid_until

/-- Lines 213-216: certificate identifier — issue year plus the first ten
uppercased hex characters of the SHA-256 digest of the preimage. -/
def make_cert_id (today_year : Int) (r : CertRecord) : String :=
  "SUS-" ++ toString today_year ++ "-" ++
  String.mk (bytesToHexU ((sha256Bytes (strBytes (certBase r))).take 5))

/-- Line 498: the levers list handed to the renderer — the computed list,
or an explicit sentinel when it is empty. -/
def recordLevers (lv : List String) : List String :=
  if lv = [] then ["No major levers detected."] else lv

/-- The five lever strings in rule-declaration order (lines 166-175). -/
def allLevers : List String :=
  [leverRetrofit, leverRouting, leverTransitionFuel, leverMethane, leverAge]

/-- Position of an EU-exposure level in the none, partial, high order. -/
def euRank (s : String) : Nat :=
  if s = "None" then 0 else if s = "Partial" then 1 else 2

/-- Modelled from the spec (§4.1 step 3): the reference definition
`annual_co2_tonnes = annual_fuel_tonnes * FuelEmissionFactor[fuel_type]`,
stated for comparison with the source computation `annual_co2_tonnes_of`. -/
def spec_annual_co2_tonnes (af ef : ℚ) : ℚ := af * ef

/-- The empty-levers scenario: retrofit Installed, EU exposure None, fuel
Ammonia, built 2010 (age 14 in 2024, below 20). -/
def emptyLeversProfile : VesselProfile :=
  { scenarioProfile with
    retrofit_status := "Installed"
    eu_exposure := "None"
    fuel_type := "Ammonia (Green)" }

/-- The output record the default scenario evaluates to (the eight lookup
values are those the tables return for its keys). -/
def scenarioOutput : RiskOutput :=
  evaluateCore 2024 scenarioProfile 1.00 1.00 3.114 1.00 1.0 0.6 1.0 75

/-- A concrete certificate record used to exercise the identifier. -/
def baseRecord : CertRecord :=
  { issuer := "Sustaina"
    organization := "Demo Shipping Ltd"
    vessel_name := "MV Example"
    imo := "IMO1234567"
    valid_from := "2026-10-12"
    valid_until := "2027-01-10"
    risk_score := 196/3
    posture := "HIGH EXPOSURE"
    levers := [] }

/-- The scenario profile with EU exposure raised to High: output record. -/
def scenarioHighOutput : RiskOutput :=
  evaluateCore 2024 { scenarioProfile with eu_exposure := "High" }
    1.00 1.00 3.114 1.00 1.0 1.0 1.0 110

/-- The scenario profile evaluated under a 2035 ambient clock year. -/
def scenario2035Output : RiskOutput :=
  evaluateCore 2035 scenarioProfile 1.00 1.00 3.114 1.00 1.0 0.6 1.0 75

/-! Helper lemmas: inversion of the table lookups, clamp bounds, and the
posture buckets. -/

theorem speed_mult_inv {s : String} {v : ℚ} (h : speed_mult s = some v) :
    v = 0.80 ∨ v = 1.00 ∨ v = 1.18 := by
  unfold speed_mult at h; split_ifs at h <;> simp_all

theorem SHIP_TYPE_MULT_inv {s : String} {v : ℚ} (h : SHIP_TYPE_MULT s = some v) :
    v = 1.15 ∨ v = 1.00 ∨ v = 1.05 ∨ v = 1.10 ∨ v = 0.95 := by
  unfold SHIP_TYPE_MULT at h; split_ifs at h <;> simp_all

theorem FUEL_EF_CO2_inv {s : String} {v : ℚ} (h : FUEL_EF_CO2 s = some v) :
    v = 3.114 ∨ v = 3.206 ∨ v = 2.750 ∨ v = 1.375 ∨ v = 0 := by
  unfold FUEL_EF_CO2 at h; split_ifs at h <;> simp_all <;> norm_num [← h]

theorem ENGINE_RISK_inv {s : String} {v : ℚ} (h : ENGINE_RISK s = some v) :
    v = 1.00 ∨ v = 1.05 ∨ v = 0.95 ∨ v = 1.10 := by
  unfold ENGINE_RISK at h; split_ifs at h <;> simp_all

theorem RETROFIT_RISK_inv {s : String} {v : ℚ} (h : RETROFIT_RISK s = some v) :
    v = 1.0 ∨ v = 0.6 ∨ v = 0.3 := by
  unfold RETROFIT_RISK at h; split_ifs at h <;> simp_all

theorem EU_RISK_inv {s : String} {v : ℚ} (h : EU_RISK s = some v) :
    (s = "None" ∧ v = 0.2) ∨ (s = "Partial" ∧ v = 0.6) ∨ (s = "High" ∧ v = 1.0) := by
  unfold EU_RISK at h; split_ifs at h <;> simp_all

theorem FUEL_PATHWAY_RISK_inv {s : String} {v : ℚ} (h : FUEL_PATHWAY_RISK s = some v) :
    v = 1.0 ∨ v = 0.9 ∨ v = 0.75 ∨ v = 0.45 ∨ v = 0.35 := by
  unfold FUEL_PATHWAY_RISK at h; split_ifs at h <;> simp_all

theorem CARBON_PRICE_inv {s : String} {v : ℚ} (h : CARBON_PRICE s = some v) :
    (s = "None" ∧ v = 30) ∨ (s = "Partial" ∧ v = 75) ∨ (s = "High" ∧ v = 110) := by
  unfold CARBON_PRICE at h; split_ifs at h <;> simp_all

theorem posture_of_buckets (s : ℚ) :
    (posture_of s = "SEVERE EXPOSURE" ↔ 75 ≤ s) ∧
    (posture_of s = "HIGH EXPOSURE" ↔ 55 ≤ s ∧ s < 75) ∧
    (posture_of s = "MODERATE EXPOSURE" ↔ 35 ≤ s ∧ s < 55) ∧
    (posture_of s = "LOWER EXPOSURE" ↔ s < 35) := by
  unfold posture_of
  split_ifs with h1 h2 h3 <;> refine ⟨?_, ?_, ?_, ?_⟩ <;> simp_all <;>
    try (intros; linarith)

/-- C1: for every valid vessel profile, the computed risk score lies in
[0, 100], and the posture label is the bucket of the score with inclusive
lower bounds: at least 75 gives the severe label, at least 55 the high
label, at least 35 the moderate label, and anything below the lower label
(the source spells the four bucket labels "SEVERE EXPOSURE",
"HIGH EXPOSURE", "MODERATE EXPOSURE", "LOWER EXPOSURE"). -/
theorem C1_risk_score_bounds_and_posture (y : Int) (p : VesselProfile)
    (o : RiskOutput) (hv : ValidProfile y p) (h : evaluate y p = some o) :
    0 ≤ o.risk_score ∧ o.risk_score ≤ 100 ∧
    (o.posture = "SEVERE EXPOSURE" ↔ 75 ≤ o.risk_score) ∧
    (o.posture = "HIGH EXPOSURE" ↔ 55 ≤ o.risk_score ∧ o.risk_score < 75) ∧
    (o.posture = "MODERATE EXPOSURE" ↔ 35 ≤ o.risk_score ∧ o.risk_score < 55) ∧
    (o.posture = "LOWER EXPOSURE" ↔ o.risk_score < 35) := by
  simp only [evaluate, Option.bind_eq_some, Option.some.injEq] at h
  obtain ⟨sm, hsm, stm, hstm, ef, hef, er, her, rr, hrr, eur, heur, fpr, hfpr,
    cp, hcp, rfl⟩ := h
  simp only [evaluateCore]
  refine ⟨?_, ?_, posture_of_buckets _⟩
  · exact le_max_left 0 _
  · exact max_le (by norm_num) (min_le_left _ _)

/-- Witness for C1 at the default scenario profile. -/
theorem C1_witness :
    0 ≤ scenarioOutput.risk_score ∧ scenarioOutput.risk_score ≤ 100 ∧
    (scenarioOutput.posture = "SEVERE EXPOSURE" ↔ 75 ≤ scenarioOutput.risk_score) ∧
    (scenarioOutput.posture = "HIGH EXPOSURE" ↔
      55 ≤ scenarioOutput.risk_score ∧ scenarioOutput.risk_score < 75) ∧
    (scenarioOutput.posture = "MODERATE EXPOSURE" ↔
      35 ≤ scenarioOutput.risk_score ∧ scenarioOutput.risk_score < 55) ∧
    (scenarioOutput.posture = "LOWER EXPOSURE" ↔ scenarioOutput.risk_score < 35) :=
  C1_risk_score_bounds_and_posture 2024 scenarioProfile scenarioOutput
    (by decide)
    (by simp [evaluate, evaluateCore, scenarioProfile, scenarioOutput, speed_mult,
      SHIP_TYPE_MULT, FUEL_EF_CO2, ENGINE_RISK, RETROFIT_RISK, EU_RISK,
      FUEL_PATHWAY_RISK, CARBON_PRICE, daily_fuel_tonnes_of, base_daily_fuel_tonnes,
      annual_fuel_tonnes_of, annual_co2_tonnes_of, age_risk_of, engine_risk_of,
      risk_score_of, posture_of, coverage_mult_of, levers, min_def, max_def] <;>
      norm_num)

/-- C2 (counterexample): at the concrete scenario the computed risk score is
196/3 = 65.3333..., which is not equal to 65.33 as the claim states. -/
theorem C2_counterexample :
    (evaluate 2024 scenarioProfile).map RiskOutput.risk_score = some (196/3) ∧
    (196 : ℚ)/3 ≠ 65.33 := by
  refine ⟨?_, by norm_num⟩
  simp [evaluate, evaluateCore, scenarioProfile, scenarioOutput, speed_mult,
      SHIP_TYPE_MULT, FUEL_EF_CO2, ENGINE_RISK, RETROFIT_RISK, EU_RISK,
      FUEL_PATHWAY_RISK, CARBON_PRICE, daily_fuel_tonnes_of, base_daily_fuel_tonnes,
      annual_fuel_tonnes_of, annual_co2_tonnes_of, age_risk_of, engine_risk_of,
      risk_score_of, posture_of, coverage_mult_of, levers, min_def, max_def] <;>
      norm_num

/-- C2 (amended): at the concrete scenario, daily fuel is 7.2 t, annual fuel
2160 t, annual CO2 6726.24 t, age risk 0.36, engine risk exactly 1/3
(0.3333...), risk score exactly 196/3 (between 65.33 and 65.34, so 65.33 to
two decimals rather than exactly 65.33), posture the high bucket, and
carbon cost 302680.8. -/
theorem C2_scenario_values :
    (evaluate 2024 scenarioProfile).map
      (fun o => (o.daily_fuel_tonnes, o.annual_fuel_tonnes, o.annual_co2_tonnes,
        o.age_risk, o.engine_risk, o.risk_score, o.posture, o.carbon_cost)) =
      some (7.2, 2160, 6726.24, 0.36, 1/3, 196/3, "HIGH EXPOSURE", 302680.8) ∧
    (65.33 : ℚ) ≤ 196/3 ∧ (196 : ℚ)/3 < 65.34 := by
  refine ⟨?_, by norm_num, by norm_num⟩
  simp [evaluate, evaluateCore, scenarioProfile, scenarioOutput, speed_mult,
      SHIP_TYPE_MULT, FUEL_EF_CO2, ENGINE_RISK, RETROFIT_RISK, EU_RISK,
      FUEL_PATHWAY_RISK, CARBON_PRICE, daily_fuel_tonnes_of, base_daily_fuel_tonnes,
      annual_fuel_tonnes_of, annual_co2_tonnes_of, age_risk_of, engine_risk_of,
      risk_score_of, posture_of, coverage_mult_of, levers, min_def, max_def] <;>
      norm_num

/-- C3: for every valid vessel profile, each of the five normalized risk
signals lies in [0, 1]; moreover the computed engine signal — which the
source only clamps from above — coincides with the fully clamped form
`clamp((factor - 0.9) / 0.3, 0, 1)` for every engine type in the table. -/
theorem C3_signals_in_unit_interval (y : Int) (p : VesselProfile)
    (o : RiskOutput) (hv : ValidProfile y p) (h : evaluate y p = some o) :
    (0 ≤ o.eu_risk ∧ o.eu_risk ≤ 1) ∧
    (0 ≤ o.age_risk ∧ o.age_risk ≤ 1) ∧
    (0 ≤ o.retrofit_risk ∧ o.retrofit_risk ≤ 1) ∧
    (0 ≤ o.fuel_pathway_risk ∧ o.fuel_pathway_risk ≤ 1) ∧
    (0 ≤ o.engine_risk ∧ o.engine_risk ≤ 1) ∧
    (∀ er0, ENGINE_RISK p.engine_type = some er0 →
      o.engine_risk = max 0 (min 1 ((er0 - 0.9) / 0.3))) := by
  simp only [evaluate, Option.bind_eq_some, Option.some.injEq] at h
  obtain ⟨sm, hsm, stm, hstm, ef, hef, er, her, rr, hrr, eur, heur, fpr, hfpr,
    cp, hcp, rfl⟩ := h
  simp only [evaluateCore]
  refine ⟨?_, ?_, ?_, ?_, ?_, ?_⟩
  · rcases EU_RISK_inv heur with ⟨-, rfl⟩ | ⟨-, rfl⟩ | ⟨-, rfl⟩ <;> norm_num
  · unfold age_risk_of
    exact ⟨le_min (by norm_num) (le_max_left 0 _), min_le_left _ _⟩
  · rcases RETROFIT_RISK_inv hrr with rfl | rfl | rfl <;> norm_num
  · rcases FUEL_PATHWAY_RISK_inv hfpr with rfl | rfl | rfl | rfl | rfl <;> norm_num
  · rcases ENGINE_RISK_inv her with rfl | rfl | rfl | rfl <;>
      norm_num [engine_risk_of]
  · intro er0 her0
    rw [her] at her0
    injection her0 with her0
    subst her0
    rcases ENGINE_RISK_inv her with rfl | rfl | rfl | rfl <;>
      norm_num [engine_risk_of]

/-- Witness for C3 at the default scenario profile. -/
theorem C3_witness :
    (0 ≤ scenarioOutput.eu_risk ∧ scenarioOutput.eu_risk ≤ 1) ∧
    (0 ≤ scenarioOutput.age_risk ∧ scenarioOutput.age_risk ≤ 1) ∧
    (0 ≤ scenarioOutput.retrofit_risk ∧ scenarioOutput.retrofit_risk ≤ 1) ∧
    (0 ≤ scenarioOutput.fuel_pathway_risk ∧ scenarioOutput.fuel_pathway_risk ≤ 1) ∧
    (0 ≤ scenarioOutput.engine_risk ∧ scenarioOutput.engine_risk ≤ 1) ∧
    (∀ er0, ENGINE_RISK scenarioProfile.engine_type = some er0 →
      scenarioOutput.engine_risk = max 0 (min 1 ((er0 - 0.9) / 0.3))) :=
  C3_signals_in_unit_interval 2024 scenarioProfile scenarioOutput
    (by decide)
    (by simp [evaluate, evaluateCore, scenarioProfile, scenarioOutput, speed_mult,
      SHIP_TYPE_MULT, FUEL_EF_CO2, ENGINE_RISK, RETROFIT_RISK, EU_RISK,
      FUEL_PATHWAY_RISK, CARBON_PRICE, daily_fuel_tonnes_of, base_daily_fuel_tonnes,
      annual_fuel_tonnes_of, annual_co2_tonnes_of, age_risk_of, engine_risk_of,
      risk_score_of, posture_of, coverage_mult_of, levers, min_def, max_def] <;>
      norm_num)

/-- C5 (counterexample): the same vessel profile evaluated under two
different ambient clock years yields different outputs, so the calendar
dependency of the source (date.today() at line 123) is not captured by the
profile input; the claim that the current year enters only as an explicit
supplied parameter fails for the code, which reads the ambient clock. -/
theorem C5_counterexample :
    evaluate 2024 scenarioProfile ≠ evaluate 2035 scenarioProfile := by
  simp [evaluate, evaluateCore, scenarioProfile, scenarioOutput, speed_mult,
      SHIP_TYPE_MULT, FUEL_EF_CO2, ENGINE_RISK, RETROFIT_RISK, EU_RISK,
      FUEL_PATHWAY_RISK, CARBON_PRICE, daily_fuel_tonnes_of, base_daily_fuel_tonnes,
      annual_fuel_tonnes_of, annual_co2_tonnes_of, age_risk_of, engine_risk_of,
      risk_score_of, posture_of, coverage_mult_of, levers, min_def, max_def] <;>
      norm_num

/-- C5 (amended): evaluation is deterministic given the ambient clock
reading — the same profile and the same clock year always yield exactly the
same output record; the computation draws on nothing else (no randomness,
no input/output), but the year is read from the ambient clock inside the
computation rather than supplied as an explicit interface parameter. -/
theorem C5_determinism_given_clock (p q : VesselProfile) (y1 y2 : Int)
    (hp : p = q) (hy : y1 = y2) : evaluate y1 p = evaluate y2 q := by
  rw [hp, hy]

/-- Witness for C5 (amended) at the default scenario. -/
theorem C5_witness : evaluate 2024 scenarioProfile = evaluate 2024 scenarioProfile :=
  C5_determinism_given_clock scenarioProfile scenarioProfile 2024 2024 rfl rfl

/-- C6: the source computation `(annual_fuel_tonnes * 1000 * ef) / 1000`
equals the reference definition `annual_fuel_tonnes * ef` for every annual
fuel amount and every emission factor the fuel table yields — the
kilogram-to-tonne conversions cancel exactly. -/
theorem C6_co2_unit_cancellation (af : ℚ) (s : String) (ef : ℚ)
    (h : FUEL_EF_CO2 s = some ef) :
    annual_co2_tonnes_of af ef = spec_annual_co2_tonnes af ef := by
  unfold annual_co2_tonnes_of spec_annual_co2_tonnes
  ring

/-- Helper: the speed dictionary succeeds exactly on its keys. -/
theorem speed_mult_isSome_iff (s : String) :
    (speed_mult s).isSome = true ↔ s ∈ SPEED_KEYS := by
  unfold speed_mult SPEED_KEYS; split_ifs <;> simp_all

/-- Helper: the ship-type table succeeds exactly on its keys. -/
theorem SHIP_TYPE_MULT_isSome_iff (s : String) :
    (SHIP_TYPE_MULT s).isSome = true ↔ s ∈ SHIP_TYPE_KEYS := by
  unfold SHIP_TYPE_MULT SHIP_TYPE_KEYS; split_ifs <;> simp_all

/-- Helper: the fuel emission table succeeds exactly on its keys. -/
theorem FUEL_EF_CO2_isSome_iff (s : String) :
    (FUEL_EF_CO2 s).isSome = true ↔ s ∈ FUEL_KEYS := by
  unfold FUEL_EF_CO2 FUEL_KEYS; split_ifs <;> simp_all

/-- Helper: the engine table succeeds exactly on its keys. -/
theorem ENGINE_RISK_isSome_iff (s : String) :
    (ENGINE_RISK s).isSome = true ↔ s ∈ ENGINE_KEYS := by
  unfold ENGINE_RISK ENGINE_KEYS; split_ifs <;> simp_all

/-- Helper: the retrofit dictionary succeeds exactly on its keys. -/
theorem RETROFIT_RISK_isSome_iff (s : String) :
    (RETROFIT_RISK s).isSome = true ↔ s ∈ RETROFIT_KEYS := by
  unfold RETROFIT_RISK RETROFIT_KEYS; split_ifs <;> simp_all

/-- Helper: the EU-risk dictionary succeeds exactly on its keys. -/
theorem EU_RISK_isSome_iff (s : String) :
    (EU_RISK s).isSome = true ↔ s ∈ EU_KEYS := by
  unfold EU_RISK EU_KEYS; split_ifs <;> simp_all

/-- Helper: the fuel-pathway dictionary succeeds exactly on the fuel keys. -/
theorem FUEL_PATHWAY_RISK_isSome_iff (s : String) :
    (FUEL_PATHWAY_RISK s).isSome = true ↔ s ∈ FUEL_KEYS := by
  unfold FUEL_PATHWAY_RISK FUEL_KEYS; split_ifs <;> simp_all

/-- Helper: the carbon-price dictionary succeeds exactly on the EU keys. -/
theorem CARBON_PRICE_isSome_iff (s : String) :
    (CARBON_PRICE s).isSome = true ↔ s ∈ EU_KEYS := by
  unfold CARBON_PRICE EU_KEYS; split_ifs <;> simp_all

/-- C7: the evaluation fails with a KeyError — modelled as `none` — exactly
when some enum field (ship type, engine type, fuel type, speed profile,
retrofit status, EU exposure) lies outside its fixed reference table, and
it yields a result, with no error, whenever every enum field is within its
table (in particular for every profile whose numeric fields are also in
range). -/
theorem C7_invalid_key_iff (y : Int) (p : VesselProfile) :
    (∃ o, evaluate y p = some o) ↔ validEnums p := by
  constructor
  · rintro ⟨o, h⟩
    simp only [evaluate, Option.bind_eq_some, Option.some.injEq] at h
    obtain ⟨sm, hsm, stm, hstm, ef, hef, er, her, rr, hrr, eur, heur, fpr, hfpr,
      cp, hcp, -⟩ := h
    exact ⟨(SHIP_TYPE_MULT_isSome_iff _).1 (by simp [hstm]),
      (ENGINE_RISK_isSome_iff _).1 (by simp [her]),
      (FUEL_EF_CO2_isSome_iff _).1 (by simp [hef]),
      (speed_mult_isSome_iff _).1 (by simp [hsm]),
      (RETROFIT_RISK_isSome_iff _).1 (by simp [hrr]),
      (EU_RISK_isSome_iff _).1 (by simp [heur])⟩
  · rintro ⟨h1, h2, h3, h4, h5, h6⟩
    obtain ⟨stm, hstm⟩ := Option.isSome_iff_exists.1 ((SHIP_TYPE_MULT_isSome_iff _).2 h1)
    obtain ⟨er, her⟩ := Option.isSome_iff_exists.1 ((ENGINE_RISK_isSome_iff _).2 h2)
    obtain ⟨ef, hef⟩ := Option.isSome_iff_exists.1 ((FUEL_EF_CO2_isSome_iff _).2 h3)
    obtain ⟨fpr, hfpr⟩ := Option.isSome_iff_exists.1 ((FUEL_PATHWAY_RISK_isSome_iff _).2 h3)
    obtain ⟨sm, hsm⟩ := Option.isSome_iff_exists.1 ((speed_mult_isSome_iff _).2 h4)
    obtain ⟨rr, hrr⟩ := Option.isSome_iff_exists.1 ((RETROFIT_RISK_isSome_iff _).2 h5)
    obtain ⟨eur, heur⟩ := Option.isSome_iff_exists.1 ((EU_RISK_isSome_iff _).2 h6)
    obtain ⟨cp, hcp⟩ := Option.isSome_iff_exists.1 ((CARBON_PRICE_isSome_iff _).2 h6)
    exact ⟨evaluateCore y p sm stm ef er rr eur fpr cp,
      by simp [evaluate, hsm, hstm, hef, her, hrr, heur, hfpr, hcp]⟩

/-- Witness for C6 at the scenario fuel amount and the HFO factor. -/
theorem C6_witness :
    FUEL_EF_CO2 "HFO (Heavy Fuel Oil)" = some 3.114 ∧
    annual_co2_tonnes_of 2160 3.114 = spec_annual_co2_tonnes 2160 3.114 :=
  ⟨by simp [FUEL_EF_CO2],
   C6_co2_unit_cancellation 2160 "HFO (Heavy Fuel Oil)" 3.114 (by simp [FUEL_EF_CO2])⟩

/-- Helper: every speed multiplier the dictionary yields is nonnegative. -/
theorem speed_mult_nonneg {s : String} {v : ℚ} (h : speed_mult s = some v) :
    0 ≤ v := by
  rcases speed_mult_inv h with rfl | rfl | rfl <;> norm_num

/-- Helper: every ship-type multiplier the table yields is nonnegative. -/
theorem SHIP_TYPE_MULT_nonneg {s : String} {v : ℚ} (h : SHIP_TYPE_MULT s = some v) :
    0 ≤ v := by
  rcases SHIP_TYPE_MULT_inv h with rfl | rfl | rfl | rfl | rfl <;> norm_num

/-- Helper: every emission factor the fuel table yields is nonnegative. -/
theorem FUEL_EF_CO2_nonneg {s : String} {v : ℚ} (h : FUEL_EF_CO2 s = some v) :
    0 ≤ v := by
  rcases FUEL_EF_CO2_inv h with rfl | rfl | rfl | rfl | rfl <;> norm_num

/-- Helper: the modelled annual CO2 amount is nonnegative for nonnegative
inputs. -/
theorem annual_co2_tonnes_nonneg {dwt od : Int} {stm sm ef : ℚ}
    (hdwt : (0 : Int) ≤ dwt) (hod : (0 : Int) ≤ od) (hstm : 0 ≤ stm)
    (hsm : 0 ≤ sm) (hef : 0 ≤ ef) :
    0 ≤ annual_co2_tonnes_of (annual_fuel_tonnes_of dwt stm sm od) ef := by
  unfold annual_co2_tonnes_of annual_fuel_tonnes_of daily_fuel_tonnes_of
    base_daily_fuel_tonnes
  have h1 : (0 : ℚ) ≤ (dwt : ℚ) := by exact_mod_cast hdwt
  have h2 : (0 : ℚ) ≤ (od : ℚ) := by exact_mod_cast hod
  apply div_nonneg _ (by norm_num)
  apply mul_nonneg (mul_nonneg _ (by norm_num)) hef
  apply mul_nonneg (mul_nonneg (mul_nonneg _ hstm) hsm) h2
  exact mul_nonneg (div_nonneg h1 (by norm_num)) (by norm_num)

/-- Helper: the clamped age signal is monotone in the age. -/
theorem age_risk_of_mono {a1 a2 : Int} (h : a1 ≤ a2) :
    age_risk_of a1 ≤ age_risk_of a2 := by
  unfold age_risk_of
  have hc : (a1 : ℚ) ≤ (a2 : ℚ) := by exact_mod_cast h
  exact min_le_min le_rfl (max_le_max le_rfl (by linarith))

/-- Helper: the clamped composite score is monotone in the EU signal. -/
theorem risk_score_of_mono_eu {e1 e2 ar rr fpr enr : ℚ} (h : e1 ≤ e2) :
    risk_score_of e1 ar rr fpr enr ≤ risk_score_of e2 ar rr fpr enr := by
  unfold risk_score_of
  exact max_le_max le_rfl (min_le_min le_rfl (by linarith))

/-- C4: monotonicity — the age signal never decreases as the age increases
(both as a function of the age and across evaluations of the same profile
under a later clock year), and raising the EU exposure along the order
none, partial, high never decreases the EU signal, the carbon cost, or the
overall risk score, all other fields held fixed. -/
theorem C4_monotonicity :
    (∀ a1 a2 : Int, a1 ≤ a2 → age_risk_of a1 ≤ age_risk_of a2) ∧
    (∀ (p : VesselProfile) (y1 y2 : Int) (o1 o2 : RiskOutput),
      evaluate y1 p = some o1 → evaluate y2 p = some o2 →
      y1 - p.year_built ≤ y2 - p.year_built →
      o1.age_risk ≤ o2.age_risk) ∧
    (∀ (y : Int) (p : VesselProfile) (e1 e2 : String) (o1 o2 : RiskOutput),
      ValidProfile y { p with eu_exposure := e1 } →
      euRank e1 ≤ euRank e2 →
      evaluate y { p with eu_exposure := e1 } = some o1 →
      evaluate y { p with eu_exposure := e2 } = some o2 →
      o1.eu_risk ≤ o2.eu_risk ∧ o1.carbon_cost ≤ o2.carbon_cost ∧
        o1.risk_score ≤ o2.risk_score) := by
  refine ⟨fun a1 a2 h => age_risk_of_mono h, ?_, ?_⟩
  · intro p y1 y2 o1 o2 h1 h2 hy
    simp only [evaluate, Option.bind_eq_some, Option.some.injEq] at h1 h2
    obtain ⟨sm1, hsm1, stm1, hstm1, ef1, hef1, er1, her1, rr1, hrr1, eur1, heur1,
      fpr1, hfpr1, cp1, hcp1, rfl⟩ := h1
    obtain ⟨sm2, hsm2, stm2, hstm2, ef2, hef2, er2, her2, rr2, hrr2, eur2, heur2,
      fpr2, hfpr2, cp2, hcp2, rfl⟩ := h2
    simp only [evaluateCore]
    exact age_risk_of_mono hy
  · intro y p e1 e2 o1 o2 hv hrank h1 h2
    simp only [evaluate, Option.bind_eq_some, Option.some.injEq] at h1 h2
    obtain ⟨sm1, hsm1, stm1, hstm1, ef1, hef1, er1, her1, rr1, hrr1, eur1, heur1,
      fpr1, hfpr1, cp1, hcp1, rfl⟩ := h1
    obtain ⟨sm2, hsm2, stm2, hstm2, ef2, hef2, er2, her2, rr2, hrr2, eur2, heur2,
      fpr2, hfpr2, cp2, hcp2, rfl⟩ := h2
    obtain rfl : sm1 = sm2 := Option.some.inj (hsm1.symm.trans hsm2)
    obtain rfl : stm1 = stm2 := Option.some.inj (hstm1.symm.trans hstm2)
    obtain rfl : ef1 = ef2 := Option.some.inj (hef1.symm.trans hef2)
    obtain rfl : er1 = er2 := Option.some.inj (her1.symm.trans her2)
    obtain rfl : rr1 = rr2 := Option.some.inj (hrr1.symm.trans hrr2)
    obtain rfl : fpr1 = fpr2 := Option.some.inj (hfpr1.symm.trans hfpr2)
    obtain ⟨-, -, -, hdwt1, -, hod1, -⟩ := hv
    dsimp only at hdwt1 hod1
    have hdwt0 : (0 : Int) ≤ p.dwt := by omega
    have hod0 : (0 : Int) ≤ p.operating_days := by omega
    have hA := annual_co2_tonnes_nonneg hdwt0 hod0 (SHIP_TYPE_MULT_nonneg hstm1)
      (speed_mult_nonneg hsm1) (FUEL_EF_CO2_nonneg hef1)
    simp only [evaluateCore]
    rcases EU_RISK_inv heur1 with ⟨rfl, rfl⟩ | ⟨rfl, rfl⟩ | ⟨rfl, rfl⟩ <;>
      rcases EU_RISK_inv heur2 with ⟨rfl, rfl⟩ | ⟨rfl, rfl⟩ | ⟨rfl, rfl⟩ <;>
      first
        | exact absurd hrank (by decide)
        | (rcases CARBON_PRICE_inv hcp1 with ⟨he1, rfl⟩ | ⟨he1, rfl⟩ | ⟨he1, rfl⟩ <;>
            rcases CARBON_PRICE_inv hcp2 with ⟨he2, rfl⟩ | ⟨he2, rfl⟩ | ⟨he2, rfl⟩ <;>
            first
              | exact absurd he1 (by decide)
              | exact absurd he2 (by decide)
              | (refine ⟨by norm_num, ?_, risk_score_of_mono_eu (by norm_num)⟩
                 simp [coverage_mult_of] <;> linarith [hA]))

/-- Witness for C4: ages 14 and 25, the scenario under clock years 2024 and
2035, and the scenario with EU exposure partial versus high. -/
theorem C4_witness :
    age_risk_of 14 ≤ age_risk_of 25 ∧
    scenarioOutput.age_risk ≤ scenario2035Output.age_risk ∧
    (scenarioOutput.eu_risk ≤ scenarioHighOutput.eu_risk ∧
      scenarioOutput.carbon_cost ≤ scenarioHighOutput.carbon_cost ∧
      scenarioOutput.risk_score ≤ scenarioHighOutput.risk_score) :=
  ⟨C4_monotonicity.1 14 25 (by decide),
   C4_monotonicity.2.1 scenarioProfile 2024 2035 scenarioOutput scenario2035Output
     (by simp [evaluate, evaluateCore, scenarioProfile, scenarioOutput, speed_mult,
        SHIP_TYPE_MULT, FUEL_EF_CO2, ENGINE_RISK, RETROFIT_RISK, EU_RISK,
        FUEL_PATHWAY_RISK, CARBON_PRICE, daily_fuel_tonnes_of, base_daily_fuel_tonnes,
        annual_fuel_tonnes_of, annual_co2_tonnes_of, age_risk_of, engine_risk_of,
        risk_score_of, posture_of, coverage_mult_of, levers, min_def, max_def] <;>
        norm_num)
     (by simp [evaluate, evaluateCore, scenarioProfile, scenario2035Output, speed_mult,
        SHIP_TYPE_MULT, FUEL_EF_CO2, ENGINE_RISK, RETROFIT_RISK, EU_RISK,
        FUEL_PATHWAY_RISK, CARBON_PRICE, daily_fuel_tonnes_of, base_daily_fuel_tonnes,
        annual_fuel_tonnes_of, annual_co2_tonnes_of, age_risk_of, engine_risk_of,
        risk_score_of, posture_of, coverage_mult_of, levers, min_def, max_def] <;>
        norm_num)
     (by decide),
   C4_monotonicity.2.2 2024 scenarioProfile "Partial" "High" scenarioOutput
     scenarioHighOutput
     (by decide)
     (by decide)
     (by simp [evaluate, evaluateCore, scenarioProfile, scenarioOutput, speed_mult,
        SHIP_TYPE_MULT, FUEL_EF_CO2, ENGINE_RISK, RETROFIT_RISK, EU_RISK,
        FUEL_PATHWAY_RISK, CARBON_PRICE, daily_fuel_tonnes_of, base_daily_fuel_tonnes,
        annual_fuel_tonnes_of, annual_co2_tonnes_of, age_risk_of, engine_risk_of,
        risk_score_of, posture_of, coverage_mult_of, levers, min_def, max_def] <;>
        norm_num)
     (by simp [evaluate, evaluateCore, scenarioProfile, scenarioHighOutput, speed_mult,
        SHIP_TYPE_MULT, FUEL_EF_CO2, ENGINE_RISK, RETROFIT_RISK, EU_RISK,
        FUEL_PATHWAY_RISK, CARBON_PRICE, daily_fuel_tonnes_of, base_daily_fuel_tonnes,
        annual_fuel_tonnes_of, annual_co2_tonnes_of, age_risk_of, engine_risk_of,
        risk_score_of, posture_of, coverage_mult_of, levers, min_def, max_def] <;>
        norm_num)⟩

/-- Helper: the first and second lever strings differ. -/
theorem lever_ne_1 : leverRetrofit ≠ leverRouting := by decide

/-- Helper: the first and third lever strings differ. -/
theorem lever_ne_2 : leverRetrofit ≠ leverTransitionFuel := by decide

/-- Helper: the first and fourth lever strings differ. -/
theorem lever_ne_3 : leverRetrofit ≠ leverMethane := by decide

/-- Helper: the first and fifth lever strings differ. -/
theorem lever_ne_4 : leverRetrofit ≠ leverAge := by decide

/-- Helper: the second and third lever strings differ. -/
theorem lever_ne_5 : leverRouting ≠ leverTransitionFuel := by decide

/-- Helper: the second and fourth lever strings differ. -/
theorem lever_ne_6 : leverRouting ≠ leverMethane := by decide

/-- Helper: the second and fifth lever strings differ. -/
theorem lever_ne_7 : leverRouting ≠ leverAge := by decide

/-- Helper: the third and fourth lever strings differ. -/
theorem lever_ne_8 : leverTransitionFuel ≠ leverMethane := by decide

/-- Helper: the third and fifth lever strings differ. -/
theorem lever_ne_9 : leverTransitionFuel ≠ leverAge := by decide

/-- Helper: the fourth and fifth lever strings differ. -/
theorem lever_ne_10 : leverMethane ≠ leverAge := by decide

set_option maxHeartbeats 2000000 in
/-- C8: the levers output is exactly the ordered selection of the five rule
matches in declaration order — it is a sublist of the duplicate-free
declaration-ordered list of the five lever strings, and each lever string
is present exactly when its rule fires; at the empty-levers scenario
(retrofit installed, EU exposure none, ammonia fuel, age below 20) the list
is empty, and the record handed to the renderer then carries the explicit
sentinel entry, which differs from every computed lever string, so an empty
result is represented distinctly and the levers section is never silently
omitted (the handed list is never empty). -/
theorem C8_levers_rule_selection :
    allLevers.Nodup ∧
    (∀ (p : VesselProfile) (age : Int),
      (levers p age).Sublist allLevers ∧
      (leverRetrofit ∈ levers p age ↔ p.retrofit_status = "None") ∧
      (leverRouting ∈ levers p age ↔
        (p.eu_exposure = "Partial" ∨ p.eu_exposure = "High")) ∧
      (leverTransitionFuel ∈ levers p age ↔
        (p.fuel_type = "HFO (Heavy Fuel Oil)" ∨
          p.fuel_type = "MGO/MDO (Marine Gas Oil/Diesel)")) ∧
      (leverMethane ∈ levers p age ↔ p.fuel_type = "LNG") ∧
      (leverAge ∈ levers p age ↔ 20 ≤ age)) ∧
    levers emptyLeversProfile (2024 - emptyLeversProfile.year_built) = [] ∧
    recordLevers (levers emptyLeversProfile (2024 - emptyLeversProfile.year_built)) =
      ["No major levers detected."] ∧
    "No major levers detected." ∉ allLevers ∧
    (∀ lv : List String, recordLevers lv ≠ []) := by
  refine ⟨by decide, ?_, by decide, by decide, by decide, ?_⟩
  · intro p age
    unfold levers
    split_ifs with h1 h2 h3 h4 h5 <;>
      refine ⟨by decide, ?_, ?_, ?_, ?_, ?_⟩ <;>
      simp_all [lever_ne_1, lever_ne_1.symm, lever_ne_2, lever_ne_2.symm,
        lever_ne_3, lever_ne_3.symm, lever_ne_4, lever_ne_4.symm,
        lever_ne_5, lever_ne_5.symm, lever_ne_6, lever_ne_6.symm,
        lever_ne_7, lever_ne_7.symm, lever_ne_8, lever_ne_8.symm,
        lever_ne_9, lever_ne_9.symm, lever_ne_10, lever_ne_10.symm]
  · intro lv
    unfold recordLevers
    split_ifs with h
    · simp
    · exact h

set_option maxHeartbeats 1000000 in
/-- C10: the transition-fuel rule and the methane-slip rule test the same
fuel field for disjoint values, so at most four of the five rules fire at
once: the levers list never exceeds four entries, and taking the first four
entries of the list handed to the renderer — as the certificate layout does
— never drops anything. -/
theorem C10_at_most_four_levers (p : VesselProfile) (age : Int) :
    (levers p age).length ≤ 4 ∧
    (recordLevers (levers p age)).take 4 = recordLevers (levers p age) := by
  unfold levers
  split_ifs with h1 h2 h3 h4 h5 <;>
    simp_all [recordLevers, List.take]

set_option maxRecDepth 100000 in
/-- C9: the certificate identifier is a deterministic function of the
organization, IMO, vessel name, validity window, and the issue year — any
two records agreeing on those five fields yield the same identifier
whatever their other fields — and at a representative concrete record,
changing any single one of the five fields changes the identifier (the
probabilistic part of the claim, witnessed at a concrete input as
collision behaviour cannot be proved pointwise beyond evaluation). -/
theorem C9_cert_id_determinism :
    (∀ (y : Int) (r1 r2 : CertRecord),
      r1.organization = r2.organization → r1.imo = r2.imo →
      r1.vessel_name = r2.vessel_name → r1.valid_from = r2.valid_from →
      r1.valid_until = r2.valid_until →
      make_cert_id y r1 = make_cert_id y r2) ∧
    make_cert_id 2026 { baseRecord with organization := "Nordic Shipping Ltd" } ≠
      make_cert_id 2026 baseRecord ∧
    make_cert_id 2026 { baseRecord with imo := "IMO1234568" } ≠
      make_cert_id 2026 baseRecord ∧
    make_cert_id 2026 { baseRecord with vessel_name := "MV Example II" } ≠
      make_cert_id 2026 baseRecord ∧
    make_cert_id 2026 { baseRecord with valid_from := "2026-10-13" } ≠
      make_cert_id 2026 baseRecord ∧
    make_cert_id 2026 { baseRecord with valid_until := "2027-01-11" } ≠
      make_cert_id 2026 baseRecord := by
  refine ⟨?_, by decide, by decide, by decide, by decide, by decide⟩
  intro y r1 r2 h1 h2 h3 h4 h5
  unfold make_cert_id certBase
  rw [h1, h2, h3, h4, h5]

set_option maxRecDepth 100000 in
/-- Witness for C9: two records differing only in fields the identifier
ignores (issuer, risk score, posture, levers) receive the same identifier. -/
theorem C9_witness :
    make_cert_id 2026
      { baseRecord with
        issuer := "Another Issuer"
        risk_score := 0
        posture := "LOWER EXPOSURE"
        levers := [leverAge] } = make_cert_id 2026 baseRecord :=
  C9_cert_id_determinism.1 2026 _ baseRecord rfl rfl rfl rfl rfl

end Sustaina
